import Mathlib

/-!
Verification of the Nobel Prize fetcher (`src/nobel_people_fetcher.py`).

The development shallowly embeds the Python module: JSON values are the
inductive `Json`, Python's dictionary/list subscripting, `in` membership,
truthiness, iteration and `int()` coercion are explicit partial operations
returning `Except PyErr`, and the three routines of the module
(`NobelApiFetcher._get_laureates_data`,
`NobelApiFetcher.find_specific_year_laureates_info` /
`NobelApiFetcher._print_single_laureate_info`, and `get_year_from_user`)
become functions that return the emitted console events together with an
outcome (normal return, `sys.exit`, or an unhandled Python exception).
The network and the interactive console are parameters: a fetch run takes
the response the network would give for the requested URL, and the input
loop takes the finite list of lines the user types.
-/

namespace NobelFetcher

/-- JSON values as decoded by `response.json()`: strings, integers, arrays
and objects (an object is its key/value pairs in order; keys are unique in
decoded JSON). Floats, booleans and null do not occur in the fields this
program touches and are omitted. -/
inductive Json where
  | str (s : String)
  | int (n : Int)
  | arr (xs : List Json)
  | obj (kvs : List (String × Json))

/-- Python exceptions the embedded code can raise: `KeyError` (with a string
or an integer argument), `IndexError`, `TypeError` and `ValueError`. -/
inductive PyErr where
  | keyError (k : String)
  | keyErrorInt (n : Int)
  | indexError
  | typeError
  | valueError
deriving DecidableEq

/-- Console events, in emission order: `logging.info/warning/error` lines and
`print(...)` lines. -/
inductive Event where
  | logInfo (msg : String)
  | logWarning (msg : String)
  | logError (msg : String)
  | printLine (s : String)
deriving DecidableEq

mutual

/-- Structural equality on JSON values, Python's `==` on decoded data
(objects are compared in their stored key order). -/
def Json.beq : Json → Json → Bool
  | .str a, .str b => a == b
  | .int a, .int b => a == b
  | .arr a, .arr b => Json.beqList a b
  | .obj a, .obj b => Json.beqPairs a b
  | _, _ => false

def Json.beqList : List Json → List Json → Bool
  | [], [] => true
  | a :: as, b :: bs => Json.beq a b && Json.beqList as bs
  | _, _ => false

def Json.beqPairs : List (String × Json) → List (String × Json) → Bool
  | [], [] => true
  | (k1, v1) :: as, (k2, v2) :: bs => k1 == k2 && Json.beq v1 v2 && Json.beqPairs as bs
  | _, _ => false

end

/-- The apostrophe character, kept out of string literals. -/
def apoChar : Char := Char.ofNat 39

/-- The double-quote character. -/
def quoteChar : Char := Char.ofNat 34

/-- Python's `repr` of a string, as far as this program can observe it:
single quotes, or double quotes when the text holds an apostrophe and no
double quote (escaping of exotic characters is not needed here). -/
def pyReprStr (s : String) : String :=
  if s.toList.contains apoChar && !(s.toList.contains quoteChar) then
    quoteChar.toString ++ s ++ quoteChar.toString
  else
    apoChar.toString ++ s ++ apoChar.toString

/-- Python subscripting `d[k]` with a string key: on a dict, the value or a
`KeyError`; on any other value a `TypeError`. -/
def Json.getKey : Json → String → Except PyErr Json
  | .obj kvs, k =>
    match kvs.find? (fun kv => kv.1 == k) with
    | some kv => .ok kv.2
    | none => .error (.keyError k)
  | _, _ => .error .typeError

/-- Python subscripting `x[0]`: the head of a list (or `IndexError` when
empty), the first character of a string (or `IndexError` when empty), a
`KeyError 0` on a JSON-decoded dict (its keys are strings, never the int 0),
and a `TypeError` on an int. -/
def Json.index0 : Json → Except PyErr Json
  | .arr (x :: _) => .ok x
  | .arr [] => .error .indexError
  | .obj _ => .error (.keyErrorInt 0)
  | .str s =>
    match s.toList with
    | c :: _ => .ok (.str c.toString)
    | [] => .error .indexError
  | .int _ => .error .typeError

/-- Whether a dict holds a key (false on non-dicts; only reached in contexts
where the value is already known to be a dict). -/
def Json.hasKey (d : Json) (k : String) : Bool :=
  match d with
  | .obj kvs => kvs.any (fun kv => kv.1 == k)
  | _ => false

/-- Whether one character list occurs as a prefix of another. -/
def listIsPrefix : List Char → List Char → Bool
  | [], _ => true
  | _ :: _, [] => false
  | a :: as, b :: bs => a == b && listIsPrefix as bs

/-- Whether one character list occurs contiguously inside another. -/
def listIsInfix (pat : List Char) : List Char → Bool
  | [] => listIsPrefix pat []
  | c :: rest => listIsPrefix pat (c :: rest) || listIsInfix pat rest

/-- Python's `k in x` for a string `k`: key membership on a dict, element
membership on a list, substring test on a string, `TypeError` on an int. -/
def pyIn (k : String) : Json → Except PyErr Bool
  | .obj kvs => .ok (kvs.any (fun kv => kv.1 == k))
  | .arr xs => .ok (xs.any (fun x => Json.beq x (.str k)))
  | .str s => .ok (listIsInfix k.toList s.toList)
  | .int _ => .error .typeError

/-- Python truthiness: empty containers, the empty string and 0 are falsy. -/
def pyTruthy : Json → Bool
  | .arr xs => !xs.isEmpty
  | .obj kvs => !kvs.isEmpty
  | .str s => !s.isEmpty
  | .int n => n != 0

/-- Python iteration `for x in v`: the elements of a list, the keys of a
dict, the characters of a string; a `TypeError` on an int. -/
def pyIterList : Json → Except PyErr (List Json)
  | .arr xs => .ok xs
  | .obj kvs => .ok (kvs.map (fun kv => .str kv.1))
  | .str s => .ok (s.toList.map (fun c => .str c.toString))
  | .int _ => .error .typeError

/-- The underscore character (a digit separator Python's `int()` accepts). -/
def underscoreChar : Char := Char.ofNat 95

/-- Digit scanner behind `int(str)`: `sawSep` records that the previous
character was an underscore, which must be followed by a digit. -/
def digitsCore : Bool → Nat → List Char → Option Nat
  | false, acc, [] => some acc
  | true, _, [] => none
  | sawSep, acc, c :: rest =>
    if c.isDigit then digitsCore false (10 * acc + (c.toNat - 48)) rest
    else if c == underscoreChar && !sawSep then digitsCore true acc rest
    else none

/-- A nonempty digit sequence (single underscores allowed between digits). -/
def parseDigits : List Char → Option Nat
  | [] => none
  | c :: rest => if c.isDigit then digitsCore false (c.toNat - 48) (c :: rest).tail else none

/-- Python's `int(s)` on a string: strip surrounding whitespace, an optional
single sign, then decimal digits; `none` models the `ValueError`. -/
def pyParseInt (s : String) : Option Int :=
  match (s.toList.dropWhile Char.isWhitespace).reverse.dropWhile Char.isWhitespace |>.reverse with
  | [] => none
  | c :: rest =>
    if c == Char.ofNat 43 then (parseDigits rest).map Int.ofNat
    else if c == Char.ofNat 45 then (parseDigits rest).map (fun n => -(n : Int))
    else (parseDigits (c :: rest)).map Int.ofNat

/-- Python's `int(x)` on a JSON value: ints pass through, strings are
parsed, lists and dicts raise `TypeError`. -/
def pyInt : Json → Except PyErr Int
  | .int n => .ok n
  | .str s =>
    match pyParseInt s with
    | some n => .ok n
    | none => .error .valueError
  | .arr _ => .error .typeError
  | .obj _ => .error .typeError

mutual

/-- Python's `repr` of a JSON value (used by `str()` on lists and dicts). -/
def pyRepr : Json → String
  | .str s => pyReprStr s
  | .int n => toString n
  | .arr xs => "[" ++ pyReprSeq xs ++ "]"
  | .obj kvs => "\x7b" ++ pyReprPairs kvs ++ "\x7d"

def pyReprSeq : List Json → String
  | [] => ""
  | [x] => pyRepr x
  | x :: y :: rest => pyRepr x ++ ", " ++ pyReprSeq (y :: rest)

def pyReprPairs : List (String × Json) → String
  | [] => ""
  | [kv] => pyReprStr kv.1 ++ ": " ++ pyRepr kv.2
  | kv :: kv2 :: rest => pyReprStr kv.1 ++ ": " ++ pyRepr kv.2 ++ ", " ++ pyReprPairs (kv2 :: rest)

end

/-- Python's `str(x)` as an f-string renders it: strings stay bare, ints
print in decimal, lists and dicts use their `repr`. -/
def pyStr : Json → String
  | .str s => s
  | .int n => toString n
  | j => pyRepr j

/-- State built by `NobelApiFetcher.__init__`: the configuration attributes
(`_all_laureates_data` starts empty and is replaced wholesale on fetch, so it
is not part of the immutable configuration modelled here). -/
structure NobelApiFetcher where
  category : String
  api_version : String
  laureates_api_url : String
  api_params : String

/-- The constructor `NobelApiFetcher.__init__(category, api_version,
year_from, year_to)`. -/
def nobelApiFetcherInit (category api_version : String) (year_from year_to : Int) :
    NobelApiFetcher :=
  { category := category
    api_version := api_version
    laureates_api_url := "https://api.nobelprize.org/" ++ api_version ++ "/laureates"
    api_params := "limit=5000&nobelPrizeYear=" ++ toString year_from ++ "&yearTo=" ++
      toString year_to ++ "&format=json&nobelPrizeCategory=" ++ category }

/-- The default construction `NobelApiFetcher()` used by the main block:
category "phy", API version "2.1", year range 2000 to 2023. -/
def defaultFetcher : NobelApiFetcher := nobelApiFetcherInit "phy" "2.1" 2000 2023

/-- The URL the fetch requests, line 66: `f"{self._laureates_api_url}?{self._api_params}"`. -/
def urlWithParams (f : NobelApiFetcher) : String :=
  f.laureates_api_url ++ "?" ++ f.api_params

/-- The `timeout=8` argument of `requests.get`, in seconds. -/
def requestTimeoutSeconds : Nat := 8

/-- What the one `requests.get` call can come back with: an OK response whose
body parsed as JSON, an OK response whose body is not valid JSON
(`response.json()` raises), a timeout, a redirect loop, an HTTP error status
(`raise_for_status`), another `requests` transport error, or any other
exception during the request. -/
inductive HttpResult where
  | ok (body : Json)
  | okBadJson
  | timeout
  | tooManyRedirects
  | httpError
  | otherRequestError
  | otherException

/-- How a routine ends: a normal return, process termination via
`sys.exit(code)`, or an unhandled Python exception propagating out. -/
inductive Outcome (α : Type) where
  | ret (a : α)
  | exited (code : Nat)
  | raised (e : PyErr)

/-- The `try` body of `_get_laureates_data` after a parsed response, lines
74 to 77: extract `data["laureates"]` when present, else warn and keep the
empty list. -/
def extractLaureates (data : Json) : List Event × Except PyErr Json :=
  match pyIn "laureates" data with
  | .error e => ([], .error e)
  | .ok true =>
    match data.getKey "laureates" with
    | .ok v => ([], .ok v)
    | .error e => ([], .error e)
  | .ok false => ([.logWarning "No 'laureates' in response data"], .ok (.arr []))

/-- `NobelApiFetcher._get_laureates_data`, lines 54 to 95: the network is a
function from the requested URL and timeout to an `HttpResult`. Transport
failures and in-`try` exceptions are caught by the `except` ladder, which
logs and calls `sys.exit(1)`. -/
def getLaureatesData (f : NobelApiFetcher) (net : String → Nat → HttpResult) :
    List Event × Outcome Json :=
  match net (urlWithParams f) requestTimeoutSeconds with
  | .ok data =>
    match extractLaureates data with
    | (evs, .ok v) => (evs, .ret v)
    | (evs, .error _) => (evs ++ [.logError "An unexpected error occurred:"], .exited 1)
  | .okBadJson => ([.logError "An unexpected error occurred:"], .exited 1)
  | .timeout => ([.logError "Request timed out"], .exited 1)
  | .tooManyRedirects => ([.logError "Too many redirects"], .exited 1)
  | .httpError => ([.logError "A request error occurred:"], .exited 1)
  | .otherRequestError => ([.logError "A request error occurred:"], .exited 1)
  | .otherException => ([.logError "An unexpected error occurred:"], .exited 1)

/-- Line 109: `laureate_data['knownName']['en']`. -/
def recName (d : Json) : Except PyErr Json :=
  (d.getKey "knownName").bind (fun v => v.getKey "en")

/-- The shared prefix `laureate_data['nobelPrizes'][0]` of lines 46, 111
and 112. -/
def recFirstPrize (d : Json) : Except PyErr Json :=
  (d.getKey "nobelPrizes").bind Json.index0

/-- Lines 46 and 111: `laureate_data['nobelPrizes'][0]['awardYear']`. -/
def recAwardYear (d : Json) : Except PyErr Json :=
  (recFirstPrize d).bind (fun p => p.getKey "awardYear")

/-- Line 112: `laureate_data['nobelPrizes'][0]['affiliations'][0]['name']['en']`. -/
def recAffName (d : Json) : Except PyErr Json :=
  ((((recFirstPrize d).bind (fun p => p.getKey "affiliations")).bind Json.index0).bind
    (fun a => a.getKey "name")).bind (fun v => v.getKey "en")

/-- Line 46's filter expression: `int(laureate_data['nobelPrizes'][0]['awardYear'])`. -/
def filterYear (d : Json) : Except PyErr Int :=
  (recAwardYear d).bind pyInt

/-- Whether line 46's comparison against `award_year` succeeds for a record. -/
def matchesYear (d : Json) (year : Int) : Bool :=
  match filterYear d with
  | .ok n => decide (n = year)
  | .error _ => false

/-- The `try` body of `_print_single_laureate_info`, lines 109 to 114, in
evaluation order; the explicit `raise KeyError(...)` of line 114 becomes the
error value with that message. -/
def printSingleBody (d : Json) : Except PyErr (Json × Json × Json) :=
  match recName d with
  | .error e => .error e
  | .ok full_name =>
    if d.hasKey "nobelPrizes" then
      match recAwardYear d with
      | .error e => .error e
      | .ok award_year =>
        match recAffName d with
        | .error e => .error e
        | .ok affiliations => .ok (full_name, award_year, affiliations)
    else .error (.keyError "'nobelPrizes' not found in laureate data")

/-- The five `print` lines of the `else` branch, lines 118 to 122. -/
def laureateBlock (full_name award_year affiliations : Json) : List Event :=
  [.printLine "---------------------------------",
   .printLine ("Full name: " ++ pyStr full_name),
   .printLine ("Award year: " ++ pyStr award_year),
   .printLine ("Affiliations: " ++ pyStr affiliations),
   .printLine ""]

/-- `NobelApiFetcher._print_single_laureate_info`, lines 97 to 122: the
`except KeyError as e` arm logs `f"Failed to print laureate info: {e}"`
(Python renders a `KeyError` by the `repr` of its argument); any other
exception escapes unhandled. -/
def printSingleLaureateInfo (d : Json) : Except PyErr (List Event) :=
  match printSingleBody d with
  | .ok (full_name, award_year, affiliations) =>
    .ok (laureateBlock full_name award_year affiliations)
  | .error (.keyError k) =>
    .ok [.logError ("Failed to print laureate info: " ++ pyReprStr k)]
  | .error (.keyErrorInt n) =>
    .ok [.logError ("Failed to print laureate info: " ++ toString n)]
  | .error e => .error e

/-- The `for` loop of lines 45 to 48: scan the records in order, print each
match, and report whether `laureate_found` ended up set. The events emitted
before an unhandled exception are kept alongside the error. -/
def scanLaureates (year : Int) : List Json → List Event × Except PyErr Bool
  | [] => ([], .ok false)
  | r :: rest =>
    match filterYear r with
    | .error e => ([], .error e)
    | .ok n =>
      if n = year then
        match printSingleLaureateInfo r with
        | .error e => ([], .error e)
        | .ok evs =>
          match scanLaureates year rest with
          | (evs2, .error e) => (evs ++ evs2, .error e)
          | (evs2, .ok _) => (evs ++ evs2, .ok true)
      else scanLaureates year rest

/-- `NobelApiFetcher.find_specific_year_laureates_info`, lines 31 to 52:
fetch, then branch on the truthiness of the fetched value; scan and print
matches, log when none was found, or log that the data was not found. -/
def findSpecificYearLaureatesInfo (f : NobelApiFetcher) (net : String → Nat → HttpResult)
    (award_year : Int) : List Event × Outcome Unit :=
  match getLaureatesData f net with
  | (evs, .exited c) => (evs, .exited c)
  | (evs, .raised e) => (evs, .raised e)
  | (evs, .ret data) =>
    if pyTruthy data then
      match pyIterList data with
      | .error e => (evs, .raised e)
      | .ok items =>
        match scanLaureates award_year items with
        | (sevs, .error e) => (evs ++ sevs, .raised e)
        | (sevs, .ok true) => (evs ++ sevs, .ret ())
        | (sevs, .ok false) =>
          (evs ++ sevs ++
            [.logInfo ("No laureates were found in " ++ toString award_year ++ "!")], .ret ())
    else (evs ++ [.logError "Laureates data not found!"], .ret ())

/-- Whether a typed line would pass `get_year_from_user`'s two checks. -/
def isValidYearLine (s : String) : Bool :=
  match pyParseInt s with
  | some y => decide (2000 ≤ y) && decide (y ≤ 2023)
  | none => false

/-- `get_year_from_user`, lines 125 to 144, over the finite list of lines the
user types: each invalid line prints its complaint and loops; the first valid
line is returned. `none` models the loop still waiting for input when the
list runs out. -/
def getYearFromUser : List String → List Event × Option Int
  | [] => ([], none)
  | s :: rest =>
    match pyParseInt s with
    | none =>
      match getYearFromUser rest with
      | (evs, r) => (Event.printLine "Entered value is not a number! Try again.\n" :: evs, r)
    | some year =>
      if 2000 ≤ year ∧ year ≤ 2023 then ([], some year)
      else
        match getYearFromUser rest with
        | (evs, r) =>
          (Event.printLine "Entered number is not a year between 2000 and 2023!" ::
            Event.printLine "Try again.\n" :: evs, r)

/-- The `print` lines among a run's events, in order. -/
def printLines (evs : List Event) : List String :=
  evs.filterMap (fun e => match e with | .printLine s => some s | _ => none)

/-- The complaint lines `get_year_from_user` prints for one invalid input. -/
def rejectEvents (s : String) : List Event :=
  match pyParseInt s with
  | none => [.printLine "Entered value is not a number! Try again.\n"]
  | some year =>
    if 2000 ≤ year ∧ year ≤ 2023 then []
    else
      [.printLine "Entered number is not a year between 2000 and 2023!",
       .printLine "Try again.\n"]

/-- The block a record contributes to the output, read through the same
access paths the printer uses (empty when a field is missing). -/
def recBlockLines (r : Json) : List String :=
  match recName r, recAwardYear r, recAffName r with
  | .ok fn, .ok ay, .ok af =>
    ["---------------------------------",
     "Full name: " ++ pyStr fn,
     "Award year: " ++ pyStr ay,
     "Affiliations: " ++ pyStr af,
     ""]
  | _, _, _ => []

/-- Whether an `Except` is a success. -/
def exOk {ε α : Type} : Except ε α → Bool
  | .ok _ => true
  | .error _ => false

/-- A well-formed record, the spec's Marie Curie example. -/
def mcRecord : Json :=
  .obj [("knownName", .obj [("en", .str "Marie Curie")]),
    ("nobelPrizes", .arr [.obj [("awardYear", .str "1903"),
      ("affiliations", .arr [.obj [("name", .obj [("en", .str "University of Paris")])]])]])]

/-- A record whose first prize matches 2005 but which has no `knownName`. -/
def namelessRecord : Json :=
  .obj [("nobelPrizes", .arr [.obj [("awardYear", .str "2005"),
    ("affiliations", .arr [.obj [("name", .obj [("en", .str "Uppsala University")])]])]])]

/-- A record with a name but no `nobelPrizes` key at all. -/
def noPrizesRecord : Json :=
  .obj [("knownName", .obj [("en", .str "Albert Einstein")])]

/-- A record whose `nobelPrizes` key maps to an empty sequence. -/
def emptyPrizesRecord : Json :=
  .obj [("knownName", .obj [("en", .str "Niels Bohr")]), ("nobelPrizes", .arr [])]

/-- A record whose first prize has an empty `affiliations` sequence. -/
def emptyAffiliationsRecord : Json :=
  .obj [("knownName", .obj [("en", .str "Niels Bohr")]),
    ("nobelPrizes", .arr [.obj [("awardYear", .str "2005"), ("affiliations", .arr [])]])]

/-- A second well-formed record, with award year 1914. -/
def laueRecord : Json :=
  .obj [("knownName", .obj [("en", .str "Max von Laue")]),
    ("nobelPrizes", .arr [.obj [("awardYear", .str "1914"),
      ("affiliations", .arr [.obj [("name", .obj [("en", .str "Frankfurt University")])]])]])]

/-- A network that always answers with the given result. -/
def constNet (r : HttpResult) : String → Nat → HttpResult := fun _ _ => r

/-- A network answering with a `laureates` object holding the given records. -/
def recordsNet (records : List Json) : String → Nat → HttpResult :=
  constNet (.ok (.obj [("laureates", .arr records)]))

theorem printLines_append (a b : List Event) :
    printLines (a ++ b) = printLines a ++ printLines b :=
  List.filterMap_append ..

theorem extractLaureates_no_print (data : Json) : printLines (extractLaureates data).1 = [] := by
  cases h : pyIn "laureates" data with
  | error e => simp [extractLaureates, h, printLines]
  | ok b =>
    cases b with
    | false => simp [extractLaureates, h, printLines]
    | true =>
      cases h2 : data.getKey "laureates" with
      | error e => simp [extractLaureates, h, h2, printLines]
      | ok v => simp [extractLaureates, h, h2, printLines]

theorem getLaureatesData_no_print (f : NobelApiFetcher) (net : String → Nat → HttpResult) :
    printLines (getLaureatesData f net).1 = [] := by
  cases hn : net (urlWithParams f) requestTimeoutSeconds with
  | ok data =>
    have h := extractLaureates_no_print data
    cases h2 : extractLaureates data with
    | mk evs r =>
      rw [h2] at h
      cases r with
      | error e =>
        simp only [getLaureatesData, hn, h2, printLines_append]
        simpa [printLines] using h
      | ok v =>
        simp only [getLaureatesData, hn, h2]
        simpa using h
  | okBadJson => simp [getLaureatesData, hn, printLines]
  | timeout => simp [getLaureatesData, hn, printLines]
  | tooManyRedirects => simp [getLaureatesData, hn, printLines]
  | httpError => simp [getLaureatesData, hn, printLines]
  | otherRequestError => simp [getLaureatesData, hn, printLines]
  | otherException => simp [getLaureatesData, hn, printLines]

theorem hasKey_of_getKey_ok (d : Json) (k : String) (v : Json) (h : d.getKey k = .ok v) :
    d.hasKey k = true := by
  cases d with
  | obj kvs =>
    cases h2 : kvs.find? (fun kv => kv.1 == k) with
    | none => simp [Json.getKey, h2] at h
    | some kv =>
      have hmem := List.find?_some h2
      have hin := List.mem_of_find?_eq_some h2
      simp only [Json.hasKey, List.any_eq_true]
      exact ⟨kv, hin, hmem⟩
  | str s => simp [Json.getKey] at h
  | int n => simp [Json.getKey] at h
  | arr xs => simp [Json.getKey] at h

example : pyParseInt "2005" = some 2005 := by decide
example : pyParseInt " -17 " = some (-17) := by decide
example : pyParseInt "1_2" = some 12 := by decide
example : pyParseInt "1__2" = none := by decide
example : pyParseInt "12.5" = none := by decide
example : pyParseInt "" = none := by decide
example : pyReprStr "knownName" = apoChar.toString ++ "knownName" ++ apoChar.toString := by decide

theorem exOk_iff {ε α : Type} (e : Except ε α) : exOk e = true ↔ ∃ a, e = .ok a := by
  cases e <;> simp [exOk]

theorem except_bind_ok {ε α β : Type} {e : Except ε α} {g : α → Except ε β} {b : β}
    (h : e.bind g = .ok b) : ∃ a, e = .ok a ∧ g a = .ok b := by
  cases e with
  | ok a => exact ⟨a, rfl, h⟩
  | error x => simp [Except.bind] at h

theorem printLines_laureateBlock (fn ay af : Json) :
    printLines (laureateBlock fn ay af) =
      ["---------------------------------", "Full name: " ++ pyStr fn,
       "Award year: " ++ pyStr ay, "Affiliations: " ++ pyStr af, ""] := rfl

theorem hasKey_of_recAwardYear_ok (r : Json) (ay : Json) (h : recAwardYear r = .ok ay) :
    r.hasKey "nobelPrizes" = true := by
  obtain ⟨p, hp, -⟩ := except_bind_ok h
  obtain ⟨v, hv, -⟩ := except_bind_ok hp
  exact hasKey_of_getKey_ok _ _ _ hv

theorem printSingle_ok (r : Json)
    (e1 : exOk (recName r) = true) (e2 : exOk (recAwardYear r) = true)
    (e3 : exOk (recAffName r) = true) :
    ∃ fn ay af, recName r = .ok fn ∧ recAwardYear r = .ok ay ∧ recAffName r = .ok af ∧
      printSingleLaureateInfo r = .ok (laureateBlock fn ay af) := by
  obtain ⟨fn, hfn⟩ := (exOk_iff _).mp e1
  obtain ⟨ay, hay⟩ := (exOk_iff _).mp e2
  obtain ⟨af, haf⟩ := (exOk_iff _).mp e3
  have hkey : r.hasKey "nobelPrizes" = true := hasKey_of_recAwardYear_ok r ay hay
  exact ⟨fn, ay, af, hfn, hay, haf, by
    simp [printSingleLaureateInfo, printSingleBody, hfn, hkey, hay, haf]⟩

theorem recBlockLines_of_ok (r : Json) (fn ay af : Json)
    (hfn : recName r = .ok fn) (hay : recAwardYear r = .ok ay) (haf : recAffName r = .ok af) :
    recBlockLines r =
      ["---------------------------------", "Full name: " ++ pyStr fn,
       "Award year: " ++ pyStr ay, "Affiliations: " ++ pyStr af, ""] := by
  simp [recBlockLines, hfn, hay, haf]

theorem scanLaureates_spec (Y : Int) : ∀ records : List Json,
    (∀ r ∈ records, exOk (filterYear r) = true) →
    (∀ r ∈ records, matchesYear r Y = true →
      exOk (recName r) = true ∧ exOk (recAwardYear r) = true ∧ exOk (recAffName r) = true) →
    (scanLaureates Y records).2 = .ok (records.any (fun r => matchesYear r Y)) ∧
    printLines (scanLaureates Y records).1 =
      (records.filter (fun r => matchesYear r Y)).flatMap recBlockLines := by
  intro records
  induction records with
  | nil => intro _ _; exact ⟨rfl, rfl⟩
  | cons r rest ih =>
    intro h1 h2
    have h1r : exOk (filterYear r) = true := h1 r (by simp)
    obtain ⟨n, hn⟩ := (exOk_iff _).mp h1r
    obtain ⟨ihA, ihB⟩ := ih (fun x hx => h1 x (by simp [hx]))
      (fun x hx hmx => h2 x (by simp [hx]) hmx)
    cases hs : scanLaureates Y rest with
    | mk sevs sres =>
      rw [hs] at ihA ihB
      have hsres : sres = .ok (rest.any (fun x => matchesYear x Y)) := by simpa using ihA
      subst hsres
      have ihB2 : printLines sevs =
          (List.filter (fun r => matchesYear r Y) rest).flatMap recBlockLines := ihB
      by_cases hm : n = Y
      · have hmY : matchesYear r Y = true := by simp [matchesYear, hn, hm]
        obtain ⟨e1, e2, e3⟩ := h2 r (by simp) hmY
        obtain ⟨fn, ay, af, hfn, hay, haf, hprint⟩ := printSingle_ok r e1 e2 e3
        constructor
        · simp [scanLaureates, hn, hm, hprint, hs, List.any_cons, hmY]
        · simp [scanLaureates, hn, hm, hprint, hs, List.filter_cons, hmY, List.flatMap_cons,
            printLines_append, printLines_laureateBlock,
            recBlockLines_of_ok r fn ay af hfn hay haf, ihB2]
      · have hmY : matchesYear r Y = false := by simp [matchesYear, hn, hm]
        constructor
        · simp [scanLaureates, hn, hm, hs, List.any_cons, hmY]
        · simp [scanLaureates, hn, hm, hs, List.filter_cons, hmY, ihB2]

theorem scanLaureates_nomatch (Y : Int) : ∀ records : List Json,
    (∀ r ∈ records, exOk (filterYear r) = true ∧ matchesYear r Y = false) →
    scanLaureates Y records = ([], .ok false) := by
  intro records
  induction records with
  | nil => intro _; rfl
  | cons r rest ih =>
    intro h
    obtain ⟨h1r, h2r⟩ := h r (by simp)
    obtain ⟨n, hn⟩ := (exOk_iff _).mp h1r
    have hnY : ¬(n = Y) := by
      intro e
      rw [e] at hn
      simp [matchesYear, hn] at h2r
    simp [scanLaureates, hn, hnY, ih (fun x hx => h x (by simp [hx]))]

theorem flatMap_recBlockLines_length : ∀ l : List Json,
    (∀ r ∈ l, (recBlockLines r).length = 5) →
    (l.flatMap recBlockLines).length = 5 * l.length := by
  intro l
  induction l with
  | nil => intro _; rfl
  | cons r rest ih =>
    intro h
    have hr := h r (by simp)
    have := ih (fun x hx => h x (by simp [hx]))
    simp only [List.flatMap_cons, List.length_append, List.length_cons, this, hr]
    omega

/-- C7: constructing the client with category c, api version v and year range
a..b fixes the request URL as the base endpoint followed by the query string
with limit, year range, format and category; the URL the run requests does
not depend on the interactively chosen year: two networks that agree on that
one URL (at the fixed 8-second timeout) give identical runs for every year. -/
theorem claim7_request_url (c v : String) (a b : Int) :
    urlWithParams (nobelApiFetcherInit c v a b) =
      "https://api.nobelprize.org/" ++ v ++ "/laureates?limit=5000&nobelPrizeYear=" ++
        toString a ++ "&yearTo=" ++ toString b ++ "&format=json&nobelPrizeCategory=" ++ c ∧
    ∀ (net net2 : String → Nat → HttpResult) (y : Int),
      net (urlWithParams (nobelApiFetcherInit c v a b)) requestTimeoutSeconds =
        net2 (urlWithParams (nobelApiFetcherInit c v a b)) requestTimeoutSeconds →
      findSpecificYearLaureatesInfo (nobelApiFetcherInit c v a b) net y =
        findSpecificYearLaureatesInfo (nobelApiFetcherInit c v a b) net2 y := by
  constructor
  · simp only [urlWithParams, nobelApiFetcherInit, String.append_assoc]
    congr 2
  · intro net net2 y h
    unfold findSpecificYearLaureatesInfo getLaureatesData
    rw [h]

theorem claim7_request_url_witness :
    findSpecificYearLaureatesInfo (nobelApiFetcherInit "phy" "2.1" 2000 2023)
        (constNet .timeout) 2010 =
      findSpecificYearLaureatesInfo (nobelApiFetcherInit "phy" "2.1" 2000 2023)
        (constNet .timeout) 2010 :=
  (claim7_request_url "phy" "2.1" 2000 2023).2 (constNet .timeout) (constNet .timeout) 2010 rfl

/-- C8: a transport failure of the GET request (timeout, redirect loop, HTTP
error status, or any other request error) makes the run log an error and
terminate the process with exit code 1, without returning and without
printing any laureate block. -/
theorem claim8_transport_failure_exits (f : NobelApiFetcher)
    (net : String → Nat → HttpResult) (y : Int) :
    (net (urlWithParams f) requestTimeoutSeconds = .timeout →
      findSpecificYearLaureatesInfo f net y = ([.logError "Request timed out"], .exited 1)) ∧
    (net (urlWithParams f) requestTimeoutSeconds = .tooManyRedirects →
      findSpecificYearLaureatesInfo f net y = ([.logError "Too many redirects"], .exited 1)) ∧
    (net (urlWithParams f) requestTimeoutSeconds = .httpError →
      findSpecificYearLaureatesInfo f net y = ([.logError "A request error occurred:"], .exited 1)) ∧
    (net (urlWithParams f) requestTimeoutSeconds = .otherRequestError →
      findSpecificYearLaureatesInfo f net y = ([.logError "A request error occurred:"], .exited 1)) := by
  refine ⟨fun h => ?_, fun h => ?_, fun h => ?_, fun h => ?_⟩ <;>
    simp [findSpecificYearLaureatesInfo, getLaureatesData, h]

theorem claim8_transport_failure_exits_witness :
    findSpecificYearLaureatesInfo defaultFetcher (constNet .timeout) 2010 =
      ([.logError "Request timed out"], .exited 1) :=
  (claim8_transport_failure_exits defaultFetcher (constNet .timeout) 2010).1 rfl

/-- C10: a response that arrives but whose body is not valid JSON, or any
other non-transport exception inside the fetch, is caught by the final
handler, logs an error and terminates with exit code 1, the same fatal
outcome as a transport failure. -/
theorem claim10_bad_json_exits (f : NobelApiFetcher)
    (net : String → Nat → HttpResult) (y : Int) :
    net (urlWithParams f) requestTimeoutSeconds = .okBadJson ∨
      net (urlWithParams f) requestTimeoutSeconds = .otherException →
    findSpecificYearLaureatesInfo f net y =
      ([.logError "An unexpected error occurred:"], .exited 1) := by
  rintro (h | h) <;> simp [findSpecificYearLaureatesInfo, getLaureatesData, h]

theorem claim10_bad_json_exits_witness :
    findSpecificYearLaureatesInfo defaultFetcher (constNet .okBadJson) 2010 =
      ([.logError "An unexpected error occurred:"], .exited 1) :=
  claim10_bad_json_exits defaultFetcher (constNet .okBadJson) 2010 (Or.inl rfl)

/-- C2 (code bug): a record without the `nobelPrizes` key crashes the scan
with an unhandled `KeyError` at the filter expression of line 46, for every
requested year, before the printer's defensive handler is ever reached; no
error is logged and the remaining records are not processed. -/
theorem claim2_missing_prizes_crashes_scan (y : Int) :
    findSpecificYearLaureatesInfo defaultFetcher (recordsNet [noPrizesRecord]) y =
      ([], .raised (.keyError "nobelPrizes")) := rfl

/-- C5: when the fetched record sequence is empty, the run logs the error
"Laureates data not found!", prints nothing, and returns normally. -/
theorem claim5_empty_data_logs_error (f : NobelApiFetcher)
    (net : String → Nat → HttpResult) (y : Int) (evs : List Event)
    (h : getLaureatesData f net = (evs, .ret (.arr []))) :
    findSpecificYearLaureatesInfo f net y =
      (evs ++ [.logError "Laureates data not found!"], .ret ()) ∧
    printLines (findSpecificYearLaureatesInfo f net y).1 = [] := by
  have hnp := getLaureatesData_no_print f net
  rw [h] at hnp
  have h1 : findSpecificYearLaureatesInfo f net y =
      (evs ++ [.logError "Laureates data not found!"], .ret ()) := by
    simp [findSpecificYearLaureatesInfo, h, pyTruthy]
  refine ⟨h1, ?_⟩
  rw [h1]
  show printLines (evs ++ [.logError "Laureates data not found!"]) = []
  rw [printLines_append]
  rw [show printLines evs = [] from hnp]
  rfl

theorem claim5_empty_data_logs_error_witness :
    findSpecificYearLaureatesInfo defaultFetcher (recordsNet []) 2010 =
      ([.logError "Laureates data not found!"], .ret ()) ∧
    printLines (findSpecificYearLaureatesInfo defaultFetcher (recordsNet []) 2010).1 = [] := by
  have h := claim5_empty_data_logs_error defaultFetcher (recordsNet []) 2010 [] rfl
  simpa using h

/-- C4: a successfully parsed response whose top-level object has no
`laureates` key makes the fetch log a warning and return the empty sequence;
when the key is present the fetch returns exactly its value. -/
theorem claim4_extract_laureates (f : NobelApiFetcher)
    (net : String → Nat → HttpResult) (kvs : List (String × Json))
    (h : net (urlWithParams f) requestTimeoutSeconds = .ok (.obj kvs)) :
    ((Json.obj kvs).hasKey "laureates" = false →
      getLaureatesData f net = ([.logWarning "No 'laureates' in response data"], .ret (.arr []))) ∧
    (∀ v, (Json.obj kvs).getKey "laureates" = .ok v →
      getLaureatesData f net = ([], .ret v)) := by
  constructor
  · intro hk
    have hany : kvs.any (fun kv => kv.1 == "laureates") = false := by
      simpa [Json.hasKey] using hk
    simp [getLaureatesData, h, extractLaureates, pyIn, hany]
  · intro v hv
    have hk : (Json.obj kvs).hasKey "laureates" = true := hasKey_of_getKey_ok _ _ _ hv
    have hany : kvs.any (fun kv => kv.1 == "laureates") = true := by
      simpa [Json.hasKey] using hk
    simp [getLaureatesData, h, extractLaureates, pyIn, hany, hv]

theorem claim4_extract_laureates_witness :
    getLaureatesData defaultFetcher (constNet (.ok (.obj [("meta", .int 1)]))) =
      ([.logWarning "No 'laureates' in response data"], .ret (.arr [])) ∧
    getLaureatesData defaultFetcher (recordsNet [mcRecord]) = ([], .ret (.arr [mcRecord])) :=
  ⟨(claim4_extract_laureates defaultFetcher (constNet (.ok (.obj [("meta", .int 1)])))
      [("meta", .int 1)] rfl).1 rfl,
   (claim4_extract_laureates defaultFetcher (recordsNet [mcRecord])
      [("laureates", .arr [mcRecord])] rfl).2 (.arr [mcRecord]) rfl⟩

/-- C3: the year collector complains about every leading line that is not an
integer or is an integer outside 2000..2023, returns the first line whose
integer lies in 2000..2023, and any returned value lies in that range. -/
theorem claim3_get_year_from_user (lines : List String) :
    (getYearFromUser lines).1 =
      (lines.takeWhile (fun s => !isValidYearLine s)).flatMap rejectEvents ∧
    (getYearFromUser lines).2 = (lines.find? isValidYearLine).bind pyParseInt ∧
    ∀ y : Int, (getYearFromUser lines).2 = some y → 2000 ≤ y ∧ y ≤ 2023 := by
  induction lines with
  | nil =>
    refine ⟨rfl, rfl, ?_⟩
    intro y h
    simp [getYearFromUser] at h
  | cons s rest ih =>
    obtain ⟨ih1, ih2, ih3⟩ := ih
    cases hr : getYearFromUser rest with
    | mk revs rres =>
      rw [hr] at ih1 ih2 ih3
      cases hp : pyParseInt s with
      | none =>
        have hv : isValidYearLine s = false := by simp [isValidYearLine, hp]
        refine ⟨?_, ?_, ?_⟩
        · simp [getYearFromUser, hp, hr, hv, rejectEvents, ih1]
        · simp [getYearFromUser, hp, hr, hv, ih2]
        · intro y h
          apply ih3
          simpa [getYearFromUser, hp, hr] using h
      | some n =>
        by_cases hy : 2000 ≤ n ∧ n ≤ 2023
        · have hv : isValidYearLine s = true := by simp [isValidYearLine, hp, hy.1, hy.2]
          refine ⟨?_, ?_, ?_⟩
          · simp [getYearFromUser, hp, hy, hv]
          · simp [getYearFromUser, hp, hy, hv]
          · intro y h
            have h2 : some n = some y := by simpa [getYearFromUser, hp, hy] using h
            obtain rfl : n = y := Option.some.inj h2
            exact hy
        · have hv : isValidYearLine s = false := by
            simp only [isValidYearLine, hp]
            rcases not_and_or.mp hy with h1 | h1 <;> simp [h1]
          refine ⟨?_, ?_, ?_⟩
          · simp [getYearFromUser, hp, hy, hr, hv, rejectEvents, ih1]
          · simp [getYearFromUser, hp, hy, hr, hv, ih2]
          · intro y h
            apply ih3
            simpa [getYearFromUser, hp, hy, hr] using h

theorem claim3_get_year_from_user_witness : 2000 ≤ (2005 : Int) ∧ (2005 : Int) ≤ 2023 :=
  (claim3_get_year_from_user ["twenty", "1999", "2005"]).2.2 2005 (by decide)

/-- C1 (counterexample): a response with exactly one record whose first
prize's award year int-coerces to the requested year 2005 (so K = 1), for
which the run nevertheless prints zero four-line blocks, because the record
has no `knownName` and the printer logs and skips it; the run still returns
normally. The claim as stated promises K = 1 blocks here. -/
theorem claim1_counterexample :
    matchesYear namelessRecord 2005 = true ∧
    printLines (findSpecificYearLaureatesInfo defaultFetcher
      (recordsNet [namelessRecord]) 2005).1 = [] ∧
    (findSpecificYearLaureatesInfo defaultFetcher
      (recordsNet [namelessRecord]) 2005).2 = .ret () :=
  ⟨rfl, rfl, rfl⟩

/-- C1 (amended): for a response whose `laureates` sequence consists of
records whose first prize award year int-coerces, and whose matching records
additionally carry an English display name and a first prize with a first
affiliation holding an English name, the run returns normally and its printed
lines are exactly one four-line block (plus the blank line) per matching
record, in the records' given order, each block showing that record's English
name, its first prize's award year and the English name of the first
affiliation of its first prize. -/
theorem claim1_blocks_per_match (f : NobelApiFetcher) (net : String → Nat → HttpResult)
    (records : List Json) (Y : Int)
    (hnet : net (urlWithParams f) requestTimeoutSeconds = .ok (.obj [("laureates", .arr records)]))
    (h1 : ∀ r ∈ records, exOk (filterYear r) = true)
    (h2 : ∀ r ∈ records, matchesYear r Y = true →
      exOk (recName r) = true ∧ exOk (recAwardYear r) = true ∧ exOk (recAffName r) = true) :
    (findSpecificYearLaureatesInfo f net Y).2 = .ret () ∧
    printLines (findSpecificYearLaureatesInfo f net Y).1 =
      (records.filter (fun r => matchesYear r Y)).flatMap recBlockLines ∧
    (printLines (findSpecificYearLaureatesInfo f net Y).1).length =
      5 * (records.filter (fun r => matchesYear r Y)).length := by
  have hget : getLaureatesData f net = ([], .ret (.arr records)) := by
    unfold getLaureatesData
    rw [hnet]
    rfl
  have hlen5 : ∀ r ∈ records.filter (fun r => matchesYear r Y), (recBlockLines r).length = 5 := by
    intro r hr
    rw [List.mem_filter] at hr
    obtain ⟨e1, e2, e3⟩ := h2 r hr.1 hr.2
    obtain ⟨fn, ay, af, hfn, hay, haf, -⟩ := printSingle_ok r e1 e2 e3
    rw [recBlockLines_of_ok r fn ay af hfn hay haf]
    rfl
  cases records with
  | nil =>
    have hrun : findSpecificYearLaureatesInfo f net Y =
        ([.logError "Laureates data not found!"], .ret ()) := by
      simp [findSpecificYearLaureatesInfo, hget, pyTruthy]
    rw [hrun]
    exact ⟨rfl, rfl, rfl⟩
  | cons r rest =>
    obtain ⟨hA, hB⟩ := scanLaureates_spec Y (r :: rest) h1 h2
    cases hs : scanLaureates Y (r :: rest) with
    | mk sevs sres =>
      rw [hs] at hA hB
      have hsres : sres = .ok ((r :: rest).any (fun x => matchesYear x Y)) := by simpa using hA
      subst hsres
      have hB2 : printLines sevs =
          (List.filter (fun x => matchesYear x Y) (r :: rest)).flatMap recBlockLines := hB
      cases hany : (r :: rest).any (fun x => matchesYear x Y) with
      | true =>
        have hrun : findSpecificYearLaureatesInfo f net Y = (sevs, .ret ()) := by
          rw [hany] at hs
          simp [findSpecificYearLaureatesInfo, hget, pyTruthy, pyIterList, hs]
        rw [hrun]
        refine ⟨rfl, hB2, ?_⟩
        rw [hB2]
        exact flatMap_recBlockLines_length _ hlen5
      | false =>
        have hrun : findSpecificYearLaureatesInfo f net Y =
            (sevs ++ [.logInfo ("No laureates were found in " ++ toString Y ++ "!")],
              .ret ()) := by
          rw [hany] at hs
          simp [findSpecificYearLaureatesInfo, hget, pyTruthy, pyIterList, hs]
        rw [hrun]
        have hpl : printLines (sevs ++
            [.logInfo ("No laureates were found in " ++ toString Y ++ "!")]) =
            printLines sevs ++ [] := by
          rw [printLines_append]
          rfl
        refine ⟨rfl, ?_, ?_⟩
        · rw [hpl, List.append_nil, hB2]
        · rw [hpl, List.append_nil, hB2]
          exact flatMap_recBlockLines_length _ hlen5

theorem claim1_blocks_per_match_witness :
    (findSpecificYearLaureatesInfo defaultFetcher
      (recordsNet [mcRecord, laueRecord]) 1903).2 = .ret () ∧
    printLines (findSpecificYearLaureatesInfo defaultFetcher
      (recordsNet [mcRecord, laueRecord]) 1903).1 =
      (([mcRecord, laueRecord]).filter (fun r => matchesYear r 1903)).flatMap recBlockLines ∧
    (printLines (findSpecificYearLaureatesInfo defaultFetcher
      (recordsNet [mcRecord, laueRecord]) 1903).1).length =
      5 * (([mcRecord, laueRecord]).filter (fun r => matchesYear r 1903)).length :=
  claim1_blocks_per_match defaultFetcher (recordsNet [mcRecord, laueRecord])
    [mcRecord, laueRecord] 1903 rfl (by decide) (by decide)

/-- C6: a non-empty record sequence in which every record's first prize award
year int-coerces and none equals the requested year makes the run print
nothing and log only the informational message naming the year. -/
theorem claim6_no_match_logs_info (f : NobelApiFetcher) (net : String → Nat → HttpResult)
    (records : List Json) (Y : Int)
    (hnet : net (urlWithParams f) requestTimeoutSeconds = .ok (.obj [("laureates", .arr records)]))
    (hne : records ≠ [])
    (h : ∀ r ∈ records, exOk (filterYear r) = true ∧ matchesYear r Y = false) :
    findSpecificYearLaureatesInfo f net Y =
      ([.logInfo ("No laureates were found in " ++ toString Y ++ "!")], .ret ()) ∧
    printLines (findSpecificYearLaureatesInfo f net Y).1 = [] := by
  have hget : getLaureatesData f net = ([], .ret (.arr records)) := by
    unfold getLaureatesData
    rw [hnet]
    rfl
  have hscan : scanLaureates Y records = ([], .ok false) := scanLaureates_nomatch Y records h
  cases records with
  | nil => exact absurd rfl hne
  | cons r rest =>
    have hrun : findSpecificYearLaureatesInfo f net Y =
        ([.logInfo ("No laureates were found in " ++ toString Y ++ "!")], .ret ()) := by
      simp [findSpecificYearLaureatesInfo, hget, pyTruthy, pyIterList, hscan]
    rw [hrun]
    exact ⟨rfl, rfl⟩

theorem claim6_no_match_logs_info_witness :
    findSpecificYearLaureatesInfo defaultFetcher (recordsNet [mcRecord, laueRecord]) 2010 =
      ([.logInfo ("No laureates were found in " ++ toString (2010 : Int) ++ "!")], .ret ()) ∧
    printLines (findSpecificYearLaureatesInfo defaultFetcher
      (recordsNet [mcRecord, laueRecord]) 2010).1 = [] :=
  claim6_no_match_logs_info defaultFetcher (recordsNet [mcRecord, laueRecord])
    [mcRecord, laueRecord] 2010 rfl (by simp) (by decide)

/-- C9 (counterexample): a record whose `nobelPrizes` key is present and maps
to the empty sequence, but which the display routine handles without any
unhandled error, because the `knownName` lookup raises a `KeyError` first and
the handler catches it; the claim as stated promises an unhandled error for
every such record. -/
theorem claim9_counterexample :
    printSingleLaureateInfo (Json.obj [("nobelPrizes", Json.arr [])]) =
      .ok [.logError ("Failed to print laureate info: " ++ pyReprStr "knownName")] ∧
    exOk (printSingleLaureateInfo (Json.obj [("nobelPrizes", Json.arr [])])) = true :=
  ⟨rfl, rfl⟩

/-- C9 (amended): once the record has an English display name, the `except
KeyError` handler does not cover empty-sequence indexing: a `nobelPrizes` key
mapping to an empty sequence, or a first prize (with an award year) whose
`affiliations` key maps to an empty sequence, makes the display routine raise
an unhandled `IndexError` instead of logging and skipping. -/
theorem claim9_index_error_unhandled (r : Json) (hname : exOk (recName r) = true) :
    (r.getKey "nobelPrizes" = .ok (.arr []) →
      printSingleLaureateInfo r = .error .indexError) ∧
    (∀ p rest, r.getKey "nobelPrizes" = .ok (.arr (p :: rest)) →
      exOk (p.getKey "awardYear") = true → p.getKey "affiliations" = .ok (.arr []) →
      printSingleLaureateInfo r = .error .indexError) := by
  obtain ⟨fn, hfn⟩ := (exOk_iff _).mp hname
  constructor
  · intro hp
    have hkey : r.hasKey "nobelPrizes" = true := hasKey_of_getKey_ok _ _ _ hp
    have hay : recAwardYear r = .error .indexError := by
      simp [recAwardYear, recFirstPrize, hp, Json.index0, Except.bind]
    simp [printSingleLaureateInfo, printSingleBody, hfn, hkey, hay]
  · intro p rest hp hawd haff
    obtain ⟨ay, hay⟩ := (exOk_iff _).mp hawd
    have hkey : r.hasKey "nobelPrizes" = true := hasKey_of_getKey_ok _ _ _ hp
    have hfp : recFirstPrize r = .ok p := by
      simp [recFirstPrize, hp, Json.index0, Except.bind]
    have hayr : recAwardYear r = .ok ay := by
      simp [recAwardYear, hfp, hay, Except.bind]
    have hafr : recAffName r = .error .indexError := by
      simp [recAffName, hfp, haff, Json.index0, Except.bind]
    simp [printSingleLaureateInfo, printSingleBody, hfn, hkey, hayr, hafr]

theorem claim9_index_error_unhandled_witness :
    printSingleLaureateInfo emptyPrizesRecord = .error .indexError ∧
    printSingleLaureateInfo emptyAffiliationsRecord = .error .indexError :=
  ⟨(claim9_index_error_unhandled emptyPrizesRecord rfl).1 rfl,
   (claim9_index_error_unhandled emptyAffiliationsRecord rfl).2
     (.obj [("awardYear", .str "2005"), ("affiliations", .arr [])]) [] rfl rfl rfl⟩

end NobelFetcher
